import Mathlib

/-
  Shallow embedding of the scheduling / alert-deduplication core of
  check-and-ping (Go).  Go strings are byte sequences, so they are modelled
  as lists of naturals (each byte < 256); Go maps keyed by check name are
  modelled as functions from byte strings to optional records; Go int64
  arithmetic is modelled on Int with explicit wraparound modulo 2^64.
-/

namespace CheckAndPing

/-- A Go string: a sequence of bytes. -/
abbrev GoStr := List Nat

/-! ## SHA-256 (crypto/sha256), as used by state.Hash

The digest of a crypto/sha256 hash after a sequence of Writes is the
SHA-256 digest (FIPS 180-4) of the concatenation of all written bytes;
the streaming object is therefore modelled as the list of bytes written
so far, and Sum as the full digest computation. -/

namespace Sha256

/-- Truncate to a 32-bit word. -/
def w32 (x : Nat) : Nat := x % 4294967296

/-- Right rotation of a 32-bit word by n (0 < n < 32). -/
def rotr (n x : Nat) : Nat := (x >>> n) + (x % 2 ^ n) * 2 ^ (32 - n)

/-- Bitwise complement of a 32-bit word. -/
def not32 (x : Nat) : Nat := 4294967295 ^^^ x

def ch (x y z : Nat) : Nat := (x &&& y) ^^^ (not32 x &&& z)

def maj (x y z : Nat) : Nat := (x &&& y) ^^^ (x &&& z) ^^^ (y &&& z)

def bigSigma0 (x : Nat) : Nat := rotr 2 x ^^^ rotr 13 x ^^^ rotr 22 x

def bigSigma1 (x : Nat) : Nat := rotr 6 x ^^^ rotr 11 x ^^^ rotr 25 x

def smallSigma0 (x : Nat) : Nat := rotr 7 x ^^^ rotr 18 x ^^^ (x >>> 3)

def smallSigma1 (x : Nat) : Nat := rotr 17 x ^^^ rotr 19 x ^^^ (x >>> 10)

/-- The 64 SHA-256 round constants. -/
def K : List Nat :=
  [1116352408, 1899447441, 3049323471, 3921009573, 961987163,
   1508970993, 2453635748, 2870763221, 3624381080, 310598401,
   607225278, 1426881987, 1925078388, 2162078206, 2614888103,
   3248222580, 3835390401, 4022224774, 264347078, 604807628,
   770255983, 1249150122, 1555081692, 1996064986, 2554220882,
   2821834349, 2952996808, 3210313671, 3336571891, 3584528711,
   113926993, 338241895, 666307205, 773529912, 1294757372,
   1396182291, 1695183700, 1986661051, 2177026350, 2456956037,
   2730485921, 2820302411, 3259730800, 3345764771, 3516065817,
   3600352804, 4094571909, 275423344, 430227734, 506948616,
   659060556, 883997877, 958139571, 1322822218, 1537002063,
   1747873779, 1955562222, 2024104815, 2227730452, 2361852424,
   2428436474, 2756734187, 3204031479, 3329325298]

/-- Working registers / hash value (h0..h7 = a..h). -/
structure Regs where
  a : Nat
  b : Nat
  c : Nat
  d : Nat
  e : Nat
  f : Nat
  g : Nat
  h : Nat
deriving DecidableEq, Repr

/-- SHA-256 initial hash value. -/
def H0 : Regs :=
  ⟨1779033703, 3144134277, 1013904242, 2773480762,
   1359893119, 2600822924, 528734635, 1541459225⟩

/-- One compression round for round constant k and schedule word w. -/
def round (r : Regs) (kw : Nat × Nat) : Regs :=
  let t1 := w32 (r.h + bigSigma1 r.e + ch r.e r.f r.g + kw.1 + kw.2)
  let t2 := w32 (bigSigma0 r.a + maj r.a r.b r.c)
  ⟨w32 (t1 + t2), r.a, r.b, r.c, w32 (r.d + t1), r.e, r.f, r.g⟩

/-- Big-endian 32-bit word from four bytes. -/
def word (b0 b1 b2 b3 : Nat) : Nat := b0 * 16777216 + b1 * 65536 + b2 * 256 + b3

/-- The sixteen big-endian words of a 64-byte block. -/
def toWords : List Nat → List Nat
  | b0 :: b1 :: b2 :: b3 :: rest => word b0 b1 b2 b3 :: toWords rest
  | _ => []

/-- Extend the 16 block words by k further schedule words. -/
def extend (w : List Nat) : Nat → List Nat
  | 0 => w
  | k + 1 =>
    let i := w.length
    let next := w32 (smallSigma1 (w.getD (i - 2) 0) + w.getD (i - 7) 0 +
      smallSigma0 (w.getD (i - 15) 0) + w.getD (i - 16) 0)
    extend (w ++ [next]) k

/-- Process one 64-byte block, updating the hash value. -/
def processBlock (hv : Regs) (block : List Nat) : Regs :=
  let w := extend (toWords block) 48
  let r := (K.zip w).foldl round hv
  ⟨w32 (hv.a + r.a), w32 (hv.b + r.b), w32 (hv.c + r.c), w32 (hv.d + r.d),
   w32 (hv.e + r.e), w32 (hv.f + r.f), w32 (hv.g + r.g), w32 (hv.h + r.h)⟩

/-- Process n consecutive 64-byte blocks of l. -/
def processBlocks (hv : Regs) (l : List Nat) : Nat → Regs
  | 0 => hv
  | n + 1 => processBlocks (processBlock hv (l.take 64)) (l.drop 64) n

/-- Big-endian byte expansion, w byte-many bytes. -/
def toBytesBE (w x : Nat) : List Nat :=
  match w with
  | 0 => []
  | n + 1 => x / 256 ^ n % 256 :: toBytesBE n x

/-- SHA-256 padding: 0x80, zeros to 56 mod 64, then the 64-bit bit length. -/
def pad (msg : List Nat) : List Nat :=
  let l := msg.length
  let zeros := (120 - (l + 1) % 64) % 64
  msg ++ 128 :: List.replicate zeros 0 ++ toBytesBE 8 (8 * l % 18446744073709551616)

/-- The SHA-256 digest (32 bytes) of a byte sequence. -/
def sha256 (msg : List Nat) : List Nat :=
  let padded := pad msg
  let hv := processBlocks H0 padded (padded.length / 64)
  toBytesBE 4 hv.a ++ toBytesBE 4 hv.b ++ toBytesBE 4 hv.c ++ toBytesBE 4 hv.d ++
    toBytesBE 4 hv.e ++ toBytesBE 4 hv.f ++ toBytesBE 4 hv.g ++ toBytesBE 4 hv.h

end Sha256

/-! ## hex encoding (encoding/hex) -/

/-- Lowercase hex digit as an ASCII byte (hex.EncodeToString alphabet). -/
def hexDigit (n : Nat) : Nat := if n < 10 then 48 + n else 87 + n

/-- hex.EncodeToString: two lowercase hex characters per byte. -/
def hexEncodeToString (bs : List Nat) : GoStr :=
  bs.flatMap fun b => [hexDigit (b / 16), hexDigit (b % 16)]

/-! ## package state -/

namespace State

/-- state.Hash: h := sha256.New(); h.Write(title); h.Write(message);
hex.EncodeToString(h.Sum(nil))[:16].  The streaming hash object is the
list of bytes written so far; Sum is the digest of that list. -/
def Hash (title message : GoStr) : GoStr :=
  let h : List Nat := []
  let h := h ++ title
  let h := h ++ message
  (hexEncodeToString (Sha256.sha256 h)).take 16

/-- alertRecord: the stored hash and the time the alert was recorded. -/
structure AlertRecord where
  hash : GoStr
  alertedAt : Nat
deriving DecidableEq, Repr

/-- Memory.alerts: a Go map from check name to alertRecord. -/
def Memory := GoStr → Option AlertRecord

/-- Memory.ShouldAlert: true if no record exists for the check, or the
stored hash differs from resultHash.  A pure read (RLock only). -/
def Memory.ShouldAlert (m : Memory) (checkName resultHash : GoStr) : Bool :=
  match m checkName with
  | none => true
  | some record => record.hash != resultHash

/-- Memory.MarkAlerted: store the record for checkName (map assignment
with time.Now() passed in explicitly); the Go method always returns nil. -/
def Memory.MarkAlerted (m : Memory) (checkName resultHash : GoStr) (now : Nat) : Memory :=
  fun n => if n = checkName then some ⟨resultHash, now⟩ else m n

/-- Memory.Clear: delete the record for checkName; always returns nil. -/
def Memory.Clear (m : Memory) (checkName : GoStr) : Memory :=
  fun n => if n = checkName then none else m n

/-- The alert_state table of the SQLite backend: primary key check_name,
columns result_hash and alerted_at. -/
def DB := GoStr → Option AlertRecord

/-- SQLite.ShouldAlert: the row query either fails (readFails, the
err != nil ∧ err != ErrNoRows branch: return true, "err on the side of
alerting"), finds no row (sql.ErrNoRows: return true), or yields the
stored hash, compared with resultHash. -/
def SQLite.ShouldAlert (db : DB) (readFails : Bool) (checkName resultHash : GoStr) : Bool :=
  if readFails then true
  else
    match db checkName with
    | none => true
    | some row => row.hash != resultHash

end State

/-! ## package check (core types) -/

/-- Priority indicates the urgency level of an alert. -/
inductive Priority where
  | low
  | normal
  | high
  | urgent
deriving DecidableEq, Repr

/-- CheckResult represents the outcome of a check. -/
structure CheckResult where
  ShouldAlert : Bool
  Title : GoStr
  Message : GoStr
  Priority : Priority
  Tags : List GoStr
  Metadata : List (GoStr × GoStr)
deriving DecidableEq, Repr

/-- Check wraps a check with scheduling metadata: a name and a base
interval (a time.Duration, i.e. an int64 count of nanoseconds).  The Run
function is effectful; its outcome for one invocation is passed to the
scheduler step explicitly. -/
structure Check where
  Name : GoStr
  Interval : Int
deriving DecidableEq, Repr

/-- Alert represents a notification to be sent. -/
structure Alert where
  CheckName : GoStr
  Title : GoStr
  Message : GoStr
  Priority : Priority
  Tags : List GoStr
  Metadata : List (GoStr × GoStr)
  Timestamp : Nat
deriving DecidableEq, Repr

/-- NewAlertFromResult creates an Alert from a CheckResult (time.Now()
passed in explicitly). -/
def NewAlertFromResult (checkName : GoStr) (result : CheckResult) (now : Nat) : Alert :=
  ⟨checkName, result.Title, result.Message, result.Priority, result.Tags,
   result.Metadata, now⟩

/-! ## package scheduler -/

/-- Two-complement (signed) wraparound of Go int64 arithmetic. -/
def int64wrap (x : Int) : Int := (x + 2 ^ 63) % 2 ^ 64 - 2 ^ 63

/-- maxBackoffMultiplier = 32 (max 32x the base interval). -/
def maxBackoffMultiplier : Int := 32

/-- maxBackoffDuration = time.Hour, in nanoseconds. -/
def maxBackoffDuration : Int := 3600000000000

/-- The per-check backoff state: the consecutiveFailures counter and the
backoffMultiplier local variables of Scheduler.runCheck.  Both are Go
ints; the counter is modelled as a Nat (it only ever increments by one
or resets to zero). -/
structure Backoff where
  consecutiveFailures : Nat
  multiplier : Int
deriving DecidableEq, Repr

/-- Initial backoff state: backoffMultiplier := 1, consecutiveFailures := 0. -/
def Backoff.init : Backoff := ⟨0, 1⟩

/-- The failure branch of Scheduler.executeCheck:
consecutiveFailures++; backoffMultiplier = min(1 << consecutiveFailures,
maxBackoffMultiplier).  The Go shift 1 << n on int64 wraps modulo 2^64. -/
def Backoff.fail (b : Backoff) : Backoff :=
  let n := b.consecutiveFailures + 1
  ⟨n, min (int64wrap (2 ^ n)) maxBackoffMultiplier⟩

/-- Backoff state after n consecutive failures starting from the initial
state, with no intervening success. -/
def backoffAfterFailures : Nat → Backoff
  | 0 => Backoff.init
  | n + 1 => (backoffAfterFailures n).fail

/-- The wait computed by Scheduler.runCheck before the next execution:
interval := c.Interval * time.Duration(backoffMultiplier); if interval >
maxBackoffDuration, interval = maxBackoffDuration.  The multiplication
is Go int64 multiplication and wraps. -/
def effectiveWait (baseInterval multiplier : Int) : Int :=
  let interval := int64wrap (baseInterval * multiplier)
  if interval > maxBackoffDuration then maxBackoffDuration else interval

/-- Everything one call of Scheduler.executeCheck does: the alert store
afterwards, the backoff state afterwards, the alerts handed to the
Send method of the Notifier (in order), and whether MarkAlerted / Clear were called. -/
structure StepResult where
  store : State.Memory
  backoff : Backoff
  sent : List Alert
  marked : Bool
  cleared : Bool

/-- Scheduler.executeCheck.  The outcome of c.Run is the runOutcome
argument (error or CheckResult); send models the Notifier collaborator
(send a = true iff notifier.Send returns nil for alert a); now is
time.Now().  Logging is omitted; the MarkAlerted and Clear of Memory always
return nil, so their error logging branches are unreachable. -/
def executeCheck (c : Check) (runOutcome : Except Unit CheckResult)
    (send : Alert → Bool) (now : Nat) (st : State.Memory) (b : Backoff) :
    StepResult :=
  match runOutcome with
  | .error _ => ⟨st, b.fail, [], false, false⟩
  | .ok result =>
    let b := Backoff.init
    if !result.ShouldAlert then
      ⟨st.Clear c.Name, b, [], false, true⟩
    else
      let resultHash := State.Hash result.Title result.Message
      if !(st.ShouldAlert c.Name resultHash) then
        ⟨st, b, [], false, false⟩
      else
        let alert := NewAlertFromResult c.Name result now
        if send alert then
          ⟨st.MarkAlerted c.Name resultHash now, b, [alert], true, false⟩
        else
          ⟨st, b, [alert], false, false⟩

/-! ## package notifier (Multi) -/

/-- A notification transport: its Name() and its Send behaviour on each
alert (none = nil error, some e = the message bytes of the error). -/
structure Notifier where
  name : GoStr
  send : Alert → Option GoStr

/-- fmt.Errorf("%s: %w", n.Name(), err): the wrapped error message. -/
def fmtNotifierErr (n : Notifier) (e : GoStr) : GoStr := n.name ++ [58, 32] ++ e

/-- The loop body of Multi.Send: for each notifier in order, call its
Send once; collect a wrapped error for each failure.  Returns the names
invoked (in order) and the errs slice. -/
def Multi.sendLoop : List Notifier → Alert → List GoStr × List GoStr
  | [], _ => ([], [])
  | n :: rest, a =>
    let tail := Multi.sendLoop rest a
    match n.send a with
    | none => (n.name :: tail.1, tail.2)
    | some e => (n.name :: tail.1, fmtNotifierErr n e :: tail.2)

/-- Multi.Send: run the loop; if len(errs) > 0 return &MultiError{errs},
else nil.  The MultiError is modelled by its Errors slice. -/
def Multi.Send (notifiers : List Notifier) (a : Alert) : Option (List GoStr) :=
  let errs := (Multi.sendLoop notifiers a).2
  if errs.isEmpty then none else some errs

/-! ## Spec-side definition for the refinement claim about the hash -/

/-- The condition hash as the specification words it: the first 16 hex
characters of the SHA-256 digest of the concatenation of the title and
the message. -/
def specConditionHash (title message : GoStr) : GoStr :=
  (hexEncodeToString (Sha256.sha256 (title ++ message))).take 16

/-! ## Concrete fixtures shared by the witness theorems -/

/-- An alerting CheckResult with title "A" and message "B". -/
def wRes : CheckResult := ⟨true, [65], [66], Priority.normal, [], []⟩

/-- A non-alerting CheckResult. -/
def wResOff : CheckResult := ⟨false, [65], [66], Priority.normal, [], []⟩

/-- A check named "c" with a one-minute base interval. -/
def wCheck : Check := ⟨[99], 60000000000⟩

/-- The empty alert store. -/
def emptyStore : State.Memory := fun _ => none

/-- A SQLite alert_state table holding one row: check "c", hash "h". -/
def storedDB : State.DB := fun n => if n = [99] then some ⟨[104], 0⟩ else none

/-! ## Helper lemmas -/

/-- Memory.ShouldAlert returns true exactly when no record is stored for
the check or the stored hash differs. -/
theorem Memory_ShouldAlert_iff (m : State.Memory) (name h : GoStr) :
    State.Memory.ShouldAlert m name h = true ↔
      (m name = none ∨ ∃ rec, m name = some rec ∧ rec.hash ≠ h) := by
  unfold State.Memory.ShouldAlert
  cases hm : m name with
  | none => simp
  | some rec => simp [bne_iff_ne]

/-- After MarkAlerted stored the very hash being asked about,
Memory.ShouldAlert answers false. -/
theorem ShouldAlert_after_mark_same (st : State.Memory) (name h1 h2 : GoStr)
    (t0 : Nat) (he : h1 = h2) :
    State.Memory.ShouldAlert (st.MarkAlerted name h1 t0) name h2 = false := by
  subst he
  simp [State.Memory.ShouldAlert, State.Memory.MarkAlerted]

/-- When the result alerts but the dedup lookup answers false, one call
of executeCheck changes nothing and sends nothing. -/
theorem executeCheck_suppresses (c : Check) (r : CheckResult)
    (send : Alert → Bool) (now : Nat) (st : State.Memory) (b : Backoff)
    (ha : r.ShouldAlert = true)
    (hs : State.Memory.ShouldAlert st c.Name (State.Hash r.Title r.Message) = false) :
    executeCheck c (.ok r) send now st b = ⟨st, Backoff.init, [], false, false⟩ := by
  simp [executeCheck, ha, hs]

/-! ## Claims -/

/-- C1: an alert is handed to the Notifier only when the dedup ledger
permits it — whenever Scheduler.executeCheck invokes Send, the store at
that moment has no record for the check or a record whose hash differs
from the condition hash of the result being alerted. -/
theorem C1_send_gated_by_dedup (c : Check) (out : Except Unit CheckResult)
    (send : Alert → Bool) (now : Nat) (st : State.Memory) (b : Backoff) (a : Alert)
    (ha : a ∈ (executeCheck c out send now st b).sent) :
    ∃ r, out = Except.ok r ∧
      (st c.Name = none ∨
        ∃ rec, st c.Name = some rec ∧ rec.hash ≠ State.Hash r.Title r.Message) := by
  cases out with
  | error e => simp [executeCheck] at ha
  | ok r =>
    refine ⟨r, rfl, ?_⟩
    by_cases h1 : r.ShouldAlert
    · by_cases h2 : State.Memory.ShouldAlert st c.Name (State.Hash r.Title r.Message)
      · exact (Memory_ShouldAlert_iff st c.Name _).mp h2
      · rw [Bool.not_eq_true] at h2
        rw [executeCheck_suppresses c r send now st b h1 h2] at ha
        simp at ha
    · rw [Bool.not_eq_true] at h1
      simp [executeCheck, h1] at ha

/-- C1 witness: a concrete execution in which Send is invoked, on an
empty store. -/
theorem C1_send_gated_by_dedup_witness :
    NewAlertFromResult wCheck.Name wRes 7 ∈
      (executeCheck wCheck (.ok wRes) (fun _ => true) 7 emptyStore Backoff.init).sent ∧
    ∃ r, (Except.ok wRes : Except Unit CheckResult) = Except.ok r ∧
      (emptyStore wCheck.Name = none ∨
        ∃ rec, emptyStore wCheck.Name = some rec ∧
          rec.hash ≠ State.Hash r.Title r.Message) := by
  have hm : NewAlertFromResult wCheck.Name wRes 7 ∈
      (executeCheck wCheck (.ok wRes) (fun _ => true) 7 emptyStore Backoff.init).sent := by
    simp [executeCheck, wRes, wCheck, emptyStore, State.Memory.ShouldAlert]
  exact ⟨hm, C1_send_gated_by_dedup wCheck (.ok wRes) (fun _ => true) 7 emptyStore
    Backoff.init (NewAlertFromResult wCheck.Name wRes 7) hm⟩

/-- C2: state.Hash is the first 16 hex characters of the SHA-256 digest
of title ++ message; two results with identical title and message hash
identically whatever their other fields, and a second such result
arriving while the first is the recorded alert is suppressed: nothing is
sent, nothing written. -/
theorem C2_hash_identity_and_suppression (r1 r2 : CheckResult) (c : Check)
    (send : Alert → Bool) (st : State.Memory) (t0 now : Nat) (b : Backoff)
    (ht : r1.Title = r2.Title) (hm : r1.Message = r2.Message)
    (ha : r2.ShouldAlert = true) :
    State.Hash r1.Title r1.Message = specConditionHash r1.Title r1.Message ∧
    State.Hash r1.Title r1.Message = State.Hash r2.Title r2.Message ∧
    executeCheck c (.ok r2) send now
        (st.MarkAlerted c.Name (State.Hash r1.Title r1.Message) t0) b =
      ⟨st.MarkAlerted c.Name (State.Hash r1.Title r1.Message) t0,
        Backoff.init, [], false, false⟩ := by
  have hhash : State.Hash r1.Title r1.Message = State.Hash r2.Title r2.Message := by
    rw [ht, hm]
  refine ⟨by simp [State.Hash, specConditionHash], hhash, ?_⟩
  exact executeCheck_suppresses c r2 send now _ b ha
    (ShouldAlert_after_mark_same st c.Name _ _ t0 hhash)

/-- C2 witness: the same result twice, at a concrete store. -/
theorem C2_hash_identity_and_suppression_witness :
    wRes.Title = wRes.Title ∧ wRes.Message = wRes.Message ∧ wRes.ShouldAlert = true ∧
    (State.Hash wRes.Title wRes.Message = specConditionHash wRes.Title wRes.Message ∧
     State.Hash wRes.Title wRes.Message = State.Hash wRes.Title wRes.Message ∧
     executeCheck wCheck (.ok wRes) (fun _ => true) 7
         (emptyStore.MarkAlerted wCheck.Name (State.Hash wRes.Title wRes.Message) 3)
         Backoff.init =
       ⟨emptyStore.MarkAlerted wCheck.Name (State.Hash wRes.Title wRes.Message) 3,
         Backoff.init, [], false, false⟩) :=
  ⟨rfl, rfl, rfl, C2_hash_identity_and_suppression wRes wRes wCheck (fun _ => true)
    emptyStore 3 7 Backoff.init rfl rfl rfl⟩

/-- C3: the spec formula multiplier = min(2^N, 32) holds for short
streaks (checked here at N = 5 and N = 62) but fails at the 63rd
consecutive failure: the Go shift 1 << 63 wraps to -2^63 on int64 before
min is applied, so the stored multiplier is -2^63 where the claim
requires min(2^63, 32) = 32, and the wait for a one-minute base interval
becomes 0 instead of the claimed min(60s * 32, 1h) = 32 minutes. -/
theorem C3_backoff_formula_fails_at_63 :
    (backoffAfterFailures 5).multiplier = 32 ∧
    (backoffAfterFailures 62).multiplier = 32 ∧
    (backoffAfterFailures 63).multiplier = -(2 ^ 63) ∧
    min ((2 : Int) ^ 63) 32 = 32 ∧
    effectiveWait 60000000000 (backoffAfterFailures 63).multiplier = 0 ∧
    min ((60000000000 : Int) * min ((2 : Int) ^ 63) 32) maxBackoffDuration
      = 1920000000000 := by
  refine ⟨by decide, by decide, by decide, by decide, by decide, by decide⟩

/-- C4: the multiplier actually used is not always positive — after the
63rd consecutive failure it is -2^63 (negative) and from the 64th on it
is 0, so the clamp at 32 does not prevent int64 overflow; the resulting
wait is 0 (immediate re-execution) instead of a backoff. -/
theorem C4_multiplier_negative_then_zero :
    (backoffAfterFailures 63).multiplier < 0 ∧
    (backoffAfterFailures 64).multiplier = 0 ∧
    (backoffAfterFailures 100).multiplier = 0 ∧
    effectiveWait 60000000000 (backoffAfterFailures 64).multiplier = 0 := by
  refine ⟨by decide, by decide, by decide, by decide⟩

/-- C5 counterexample: on a SQLite read failure the stored record is
ignored — with a record for check "c" carrying exactly the queried hash,
ShouldAlert still answers true, so the claimed "if and only if" is false
as stated. -/
theorem C5_counterexample_sqlite_read_error :
    State.SQLite.ShouldAlert storedDB true [99] [104] = true ∧
    ¬(storedDB [99] = none ∨
        ∃ rec, storedDB [99] = some rec ∧ rec.hash ≠ [104]) := by
  refine ⟨rfl, ?_⟩
  rintro (h | ⟨rec, hrec, hne⟩)
  · simp [storedDB] at h
  · simp [storedDB] at hrec
    exact hne (by rw [← hrec])

/-- C5 (amended): ShouldAlert answers true exactly when no record is
stored or the stored hash differs, for the in-memory implementation
always and for the SQLite implementation whenever the row read succeeds;
on a failed read SQLite answers true regardless of the store (fail
open).  Both reads leave the store untouched. -/
theorem C5_shouldAlert_contract :
    (∀ (m : State.Memory) (name h : GoStr),
        State.Memory.ShouldAlert m name h = true ↔
          (m name = none ∨ ∃ rec, m name = some rec ∧ rec.hash ≠ h)) ∧
    (∀ (db : State.DB) (name h : GoStr),
        State.SQLite.ShouldAlert db false name h = true ↔
          (db name = none ∨ ∃ rec, db name = some rec ∧ rec.hash ≠ h)) ∧
    (∀ (db : State.DB) (name h : GoStr),
        State.SQLite.ShouldAlert db true name h = true) := by
  refine ⟨Memory_ShouldAlert_iff, ?_, fun db name h => rfl⟩
  intro db name h
  unfold State.SQLite.ShouldAlert
  cases hm : db name with
  | none => simp
  | some rec => simp [bne_iff_ne]

/-- C6: when the Send of the Notifier fails, MarkAlerted is not called and the
store is unchanged, so the same condition hash still passes ShouldAlert
at its next occurrence. -/
theorem C6_failed_delivery_keeps_eligibility (c : Check) (result : CheckResult)
    (send : Alert → Bool) (now : Nat) (st : State.Memory) (b : Backoff)
    (hr : result.ShouldAlert = true)
    (hs : State.Memory.ShouldAlert st c.Name
      (State.Hash result.Title result.Message) = true)
    (hf : send (NewAlertFromResult c.Name result now) = false) :
    (executeCheck c (.ok result) send now st b).marked = false ∧
    (executeCheck c (.ok result) send now st b).store = st ∧
    State.Memory.ShouldAlert (executeCheck c (.ok result) send now st b).store
      c.Name (State.Hash result.Title result.Message) = true := by
  simp [executeCheck, hr, hs, hf]

/-- C6 witness: a concrete failing notifier on an empty store. -/
theorem C6_failed_delivery_keeps_eligibility_witness :
    wRes.ShouldAlert = true ∧
    State.Memory.ShouldAlert emptyStore wCheck.Name
      (State.Hash wRes.Title wRes.Message) = true ∧
    (fun _ => false : Alert → Bool) (NewAlertFromResult wCheck.Name wRes 7) = false ∧
    ((executeCheck wCheck (.ok wRes) (fun _ => false) 7 emptyStore Backoff.init).marked
        = false ∧
      (executeCheck wCheck (.ok wRes) (fun _ => false) 7 emptyStore Backoff.init).store
        = emptyStore ∧
      State.Memory.ShouldAlert
        (executeCheck wCheck (.ok wRes) (fun _ => false) 7 emptyStore Backoff.init).store
        wCheck.Name (State.Hash wRes.Title wRes.Message) = true) :=
  ⟨rfl, rfl, rfl, C6_failed_delivery_keeps_eligibility wCheck wRes (fun _ => false)
    7 emptyStore Backoff.init rfl rfl rfl⟩

/-- C7: a result with ShouldAlert = false reports success to backoff
(reset to (0, 1)) and clears the record for the check; afterwards every
hash passes ShouldAlert for that check, and a later occurrence of the
previously alerted condition is handed to the Notifier again. -/
theorem C7_resolution_clears_and_rearms (c : Check) (result : CheckResult)
    (send : Alert → Bool) (now : Nat) (st : State.Memory) (b : Backoff)
    (hr : result.ShouldAlert = false) :
    (executeCheck c (.ok result) send now st b).backoff = Backoff.init ∧
    (executeCheck c (.ok result) send now st b).cleared = true ∧
    (executeCheck c (.ok result) send now st b).store = st.Clear c.Name ∧
    (∀ h : GoStr, State.Memory.ShouldAlert (st.Clear c.Name) c.Name h = true) ∧
    (∀ (r2 : CheckResult) (send2 : Alert → Bool) (now2 : Nat) (b2 : Backoff),
        r2.ShouldAlert = true →
        (executeCheck c (.ok r2) send2 now2 (st.Clear c.Name) b2).sent =
          [NewAlertFromResult c.Name r2 now2]) := by
  have hclear : ∀ h : GoStr,
      State.Memory.ShouldAlert (st.Clear c.Name) c.Name h = true := by
    intro h
    simp [State.Memory.ShouldAlert, State.Memory.Clear]
  refine ⟨by simp [executeCheck, hr], by simp [executeCheck, hr],
    by simp [executeCheck, hr], hclear, ?_⟩
  intro r2 send2 now2 b2 h2
  have hsa := hclear (State.Hash r2.Title r2.Message)
  by_cases hs2 : send2 (NewAlertFromResult c.Name r2 now2) <;>
    simp [executeCheck, h2, hsa, hs2]

/-- C7 witness: a concrete non-alerting result. -/
theorem C7_resolution_clears_and_rearms_witness :
    wResOff.ShouldAlert = false ∧
    ((executeCheck wCheck (.ok wResOff) (fun _ => true) 7 emptyStore Backoff.init).backoff
        = Backoff.init ∧
      (executeCheck wCheck (.ok wResOff) (fun _ => true) 7 emptyStore Backoff.init).cleared
        = true ∧
      (executeCheck wCheck (.ok wResOff) (fun _ => true) 7 emptyStore Backoff.init).store
        = emptyStore.Clear wCheck.Name ∧
      (∀ h : GoStr, State.Memory.ShouldAlert (emptyStore.Clear wCheck.Name)
        wCheck.Name h = true) ∧
      (∀ (r2 : CheckResult) (send2 : Alert → Bool) (now2 : Nat) (b2 : Backoff),
          r2.ShouldAlert = true →
          (executeCheck wCheck (.ok r2) send2 now2
              (emptyStore.Clear wCheck.Name) b2).sent =
            [NewAlertFromResult wCheck.Name r2 now2])) :=
  ⟨rfl, C7_resolution_clears_and_rearms wCheck wResOff (fun _ => true) 7 emptyStore
    Backoff.init rfl⟩

/-- C8: when the probe returns an error, executeCheck reports a failure
to the backoff state (failure count incremented, multiplier recomputed
as min(1 << count, 32) on int64) and returns with the store unchanged,
no Send, no MarkAlerted, no Clear. -/
theorem C8_execution_error_touches_only_backoff (c : Check) (send : Alert → Bool)
    (now : Nat) (st : State.Memory) (b : Backoff) (e : Unit) :
    executeCheck c (.error e) send now st b = ⟨st, b.fail, [], false, false⟩ ∧
    (Backoff.fail b).consecutiveFailures = b.consecutiveFailures + 1 ∧
    (Backoff.fail b).multiplier =
      min (int64wrap (2 ^ (b.consecutiveFailures + 1))) maxBackoffMultiplier :=
  ⟨rfl, rfl, rfl⟩

/-- The Multi.Send loop invokes every underlying Send, in order, with no
short-circuit. -/
theorem Multi_sendLoop_attempted (ns : List Notifier) (a : Alert) :
    (Multi.sendLoop ns a).1 = ns.map Notifier.name := by
  induction ns with
  | nil => rfl
  | cons n rest ih => cases hs : n.send a <;> simp [Multi.sendLoop, hs, ih]

/-- The errs slice of Multi.Send holds exactly one wrapped entry per
failing transport, in order. -/
theorem Multi_sendLoop_errs (ns : List Notifier) (a : Alert) :
    (Multi.sendLoop ns a).2 =
      ns.filterMap fun n => (n.send a).map (fmtNotifierErr n) := by
  induction ns with
  | nil => rfl
  | cons n rest ih =>
    cases hs : n.send a <;> simp [Multi.sendLoop, List.filterMap_cons, hs, ih]

/-- C9: Multi.Send attempts every underlying notifier exactly once (the
names invoked are exactly the notifier list, in order, regardless of
failures), returns nil precisely when every transport succeeded, and
otherwise returns a combined error carrying one wrapped entry per failed
transport. -/
theorem C9_multi_send_fanout (ns : List Notifier) (a : Alert) :
    (Multi.sendLoop ns a).1 = ns.map Notifier.name ∧
    (Multi.Send ns a = none ↔ ∀ n ∈ ns, n.send a = none) ∧
    (Multi.sendLoop ns a).2 =
      ns.filterMap fun n => (n.send a).map (fmtNotifierErr n) := by
  refine ⟨Multi_sendLoop_attempted ns a, ?_, Multi_sendLoop_errs ns a⟩
  have h1 : Multi.Send ns a = none ↔ (Multi.sendLoop ns a).2 = [] := by
    unfold Multi.Send
    cases h : (Multi.sendLoop ns a).2 with
    | nil => simp
    | cons x xs => simp
  rw [h1, Multi_sendLoop_errs, List.filterMap_eq_nil_iff]
  constructor
  · exact fun h n hn => Option.map_eq_none'.mp (h n hn)
  · intro h n hn
    rw [h n hn]
    rfl

/-- C10: state.Hash digests the bare concatenation of title and message
with no separator, so any two title/message splits of the same byte
sequence share one hash, and a result whose split differs from the
recorded one is suppressed as a duplicate. -/
theorem C10_hash_ignores_split (t1 m1 t2 m2 : GoStr) (c : Check)
    (r2 : CheckResult) (send : Alert → Bool) (st : State.Memory)
    (t0 now : Nat) (b : Backoff)
    (h : t1 ++ m1 = t2 ++ m2) (ht : r2.Title = t2) (hm : r2.Message = m2)
    (ha : r2.ShouldAlert = true) :
    State.Hash t1 m1 = State.Hash t2 m2 ∧
    executeCheck c (.ok r2) send now
        (st.MarkAlerted c.Name (State.Hash t1 m1) t0) b =
      ⟨st.MarkAlerted c.Name (State.Hash t1 m1) t0,
        Backoff.init, [], false, false⟩ := by
  have hhash : State.Hash t1 m1 = State.Hash t2 m2 := by
    simp only [State.Hash, List.nil_append]
    rw [h]
  refine ⟨hhash, ?_⟩
  refine executeCheck_suppresses c r2 send now _ b ha ?_
  refine ShouldAlert_after_mark_same st c.Name _ _ t0 ?_
  rw [hhash, ht, hm]

/-- C10 witness: the splits ("a", "bc") and ("ab", "c") of the bytes of
"abc" share one dedup identity and the second occurrence is suppressed. -/
theorem C10_hash_ignores_split_witness :
    ([97] ++ [98, 99] : GoStr) = [97, 98] ++ [99] ∧
    (⟨true, [97, 98], [99], Priority.normal, [], []⟩ : CheckResult).Title = [97, 98] ∧
    (⟨true, [97, 98], [99], Priority.normal, [], []⟩ : CheckResult).Message = [99] ∧
    (⟨true, [97, 98], [99], Priority.normal, [], []⟩ : CheckResult).ShouldAlert = true ∧
    (State.Hash [97] [98, 99] = State.Hash [97, 98] [99] ∧
      executeCheck wCheck
          (.ok ⟨true, [97, 98], [99], Priority.normal, [], []⟩) (fun _ => true) 7
          (emptyStore.MarkAlerted wCheck.Name (State.Hash [97] [98, 99]) 3)
          Backoff.init =
        ⟨emptyStore.MarkAlerted wCheck.Name (State.Hash [97] [98, 99]) 3,
          Backoff.init, [], false, false⟩) :=
  ⟨rfl, rfl, rfl, rfl, C10_hash_ignores_split [97] [98, 99] [97, 98] [99] wCheck
    ⟨true, [97, 98], [99], Priority.normal, [], []⟩ (fun _ => true) emptyStore 3 7
    Backoff.init rfl rfl rfl rfl⟩

end CheckAndPing
